import Mathlib

/-!
Verification of the repository health-scoring module.

The module is a pure scoring library: five sub-score calculators
(activity, community, documentation, freshness, compatibility), a
health-score aggregator that rounds the unweighted mean of the five,
time utilities (days-since and a relative-time string), and a
transformer producing the display record.

Embedding conventions:
* Timestamps are absolute instants in milliseconds since the epoch,
  modelled as `Int`.  The ambient wall clock read by the source
  (`new Date()`) is threaded through as an explicit `now : Int`
  parameter.
* JavaScript numeric operations on these values are exact in the
  relevant range; fractional arithmetic (the mean of the sub-scores,
  the `0.3`/`0.5` contributor factors and `Math.ceil`/`Math.floor`/
  `Math.round`) is modelled over `ℚ` with `Int.ceil`/`Int.floor`.
* Nullable / optional fields (`string | null`, `contributors?` etc.)
  are modelled as `Option`; JavaScript truthiness on strings treats
  the empty string as falsy, captured by `truthyStr`.
-/

/-- A license record: `{ spdx_id: string; name: string }`. -/
structure License where
  spdx_id : String
  name : String
deriving Repr, DecidableEq

/-- The raw metadata record consumed by the scoring module
(interface `GitHubRepoData`). -/
structure GitHubRepoData where
  id : Nat
  name : String
  full_name : String
  description : Option String
  stargazers_count : Nat
  language : String
  license : Option License
  open_issues_count : Nat
  pushed_at : Int
  created_at : Int
  updated_at : Int
  topics : List String
  has_wiki : Bool
  has_pages : Bool
  homepage : Option String
  contributors : Option Nat
  goodFirstIssues : Option Nat
  hasCI : Option Bool
deriving Repr, DecidableEq

/-- The five named sub-scores (`healthBreakdown` object). -/
structure HealthBreakdown where
  activity : Nat
  community : Nat
  documentation : Nat
  freshness : Nat
  compatibility : Nat
deriving Repr, DecidableEq

/-- Trend direction: the union type `'up' | 'down' | 'stable'`. -/
inductive Trend where
  | up
  | down
  | stable
deriving Repr, DecidableEq

/-- The display record produced by the transformer (type `Repository`). -/
structure Repository where
  id : String
  name : String
  description : String
  stars : Nat
  healthScore : Int
  lastCommit : String
  goodFirstIssues : Nat
  ciStatus : String
  language : String
  license : String
  contributors : Nat
  topics : List String
  signals : List String
  trend : Trend
  healthBreakdown : HealthBreakdown
  avgIssueResponseTime : String
  prMergeRate : Nat
  activeContributors : Nat
  contributorDiversity : Nat
  codeCoverage : Nat
  hasGoodDocs : Bool
  hasWiki : Bool
  hasWebsite : Bool
deriving Repr, DecidableEq

/-- JavaScript truthiness of a nullable string: truthy iff present and
non-empty (`null` and `""` are falsy). -/
def truthyStr : Option String → Bool
  | none => false
  | some s => !s.isEmpty

/-- `Math.round` on a non-negative value: round half up,
`⌊q + 1/2⌋`. -/
def jsRound (q : ℚ) : Int := ⌊q + 1 / 2⌋

/-- `getDaysSince`: `Math.ceil(Math.abs(now - date) / (1000*60*60*24))`,
the ceiling of the absolute millisecond difference divided by one day. -/
def getDaysSince (now date : Int) : Int :=
  ⌈(((now - date).natAbs : ℚ) / (1000 * 60 * 60 * 24) : ℚ)⌉

/-- `calculateActivityScore`: day-bucket table on days since last push. -/
def calculateActivityScore (now pushedAt : Int) : Nat :=
  let daysSinceLastPush := getDaysSince now pushedAt
  if daysSinceLastPush ≤ 7 then 95
  else if daysSinceLastPush ≤ 14 then 90
  else if daysSinceLastPush ≤ 30 then 85
  else if daysSinceLastPush ≤ 60 then 75
  else if daysSinceLastPush ≤ 90 then 65
  else if daysSinceLastPush ≤ 180 then 50
  else 30

/-- `calculateCommunityScore`: stars bucket plus contributors bucket,
capped at 100 by `Math.min`. -/
def calculateCommunityScore (stars contributors : Nat) : Nat :=
  let score1 : Nat :=
    if stars ≥ 50000 then 50
    else if stars ≥ 10000 then 45
    else if stars ≥ 5000 then 40
    else if stars ≥ 1000 then 35
    else if stars ≥ 500 then 25
    else 15
  let score2 : Nat :=
    if contributors ≥ 500 then 50
    else if contributors ≥ 100 then 45
    else if contributors ≥ 50 then 40
    else if contributors ≥ 20 then 30
    else if contributors ≥ 10 then 20
    else 10
  min 100 (score1 + score2)

/-- `calculateDocumentationScore`: four independent +25 contributions.
`description && description.length > 20` is falsy for `null` and for the
empty string, and otherwise requires length strictly above 20. -/
def calculateDocumentationScore (description : Option String)
    (hasWiki hasPages : Bool) (homepage : Option String) : Nat :=
  (if (match description with
       | some s => decide (s.length > 20)
       | none => false) then 25 else 0)
  + (if hasWiki then 25 else 0)
  + (if hasPages then 25 else 0)
  + (if truthyStr homepage then 25 else 0)

/-- `calculateFreshnessScore`: two-tier policy, a lenient ladder for
repositories younger than 365 days and a stricter one otherwise. -/
def calculateFreshnessScore (now createdAt pushedAt : Int) : Nat :=
  let daysSinceCreation := getDaysSince now createdAt
  let daysSinceLastPush := getDaysSince now pushedAt
  if daysSinceCreation < 365 then
    if daysSinceLastPush ≤ 30 then 95
    else if daysSinceLastPush ≤ 90 then 85
    else 70
  else
    if daysSinceLastPush ≤ 7 then 95
    else if daysSinceLastPush ≤ 30 then 85
    else if daysSinceLastPush ≤ 90 then 70
    else if daysSinceLastPush ≤ 180 then 55
    else 35

/-- `calculateCompatibilityScore`: license +40, CI +30, non-empty topic
list +30.  An absent (`undefined`) CI flag is falsy. -/
def calculateCompatibilityScore (license : Option License)
    (hasCI : Option Bool) (topics : List String) : Nat :=
  (if license.isSome then 40 else 0)
  + (if hasCI.getD false then 30 else 0)
  + (if topics.length > 0 then 30 else 0)

/-- `calculateHealthScore`: pushes the five sub-scores into a list,
averages them (`reduce` sum divided by length) and applies
`Math.round`. -/
def calculateHealthScore (now : Int) (repo : GitHubRepoData) : Int :=
  let scores : List Nat :=
    [calculateActivityScore now repo.pushed_at,
     calculateCommunityScore repo.stargazers_count (repo.contributors.getD 0),
     calculateDocumentationScore repo.description repo.has_wiki
       repo.has_pages repo.homepage,
     calculateFreshnessScore now repo.created_at repo.pushed_at,
     calculateCompatibilityScore repo.license repo.hasCI repo.topics]
  let averageScore : ℚ :=
    ((scores.foldl (fun sum score => sum + score) 0 : Nat) : ℚ)
      / (scores.length : ℚ)
  jsRound averageScore

/-- The body of `getTimeAgo` after the day count is computed: maps a day
count to a relative-time string. -/
def timeAgoFromDays (days : Int) : String :=
  if days = 0 then "today"
  else if days = 1 then "1 day ago"
  else if days < 7 then toString days ++ " days ago"
  else if days < 30 then
    let weeks := days / 7
    if weeks = 1 then "1 week ago" else toString weeks ++ " weeks ago"
  else if days < 365 then
    let months := days / 30
    if months = 1 then "1 month ago" else toString months ++ " months ago"
  else
    let years := days / 365
    if years = 1 then "1 year ago" else toString years ++ " years ago"

/-- `getTimeAgo`: relative-time string for the days elapsed since the
given instant. -/
def getTimeAgo (now date : Int) : String :=
  timeAgoFromDays (getDaysSince now date)

/-- `transformGitHubRepoToRepository`: the full transformer, producing
the display record from a raw metadata record. -/
def transformGitHubRepoToRepository (now : Int)
    (githubRepo : GitHubRepoData) : Repository :=
  let healthScore := calculateHealthScore now githubRepo
  let healthBreakdown : HealthBreakdown :=
    { activity := calculateActivityScore now githubRepo.pushed_at
      community := calculateCommunityScore githubRepo.stargazers_count
        (githubRepo.contributors.getD 0)
      documentation := calculateDocumentationScore githubRepo.description
        githubRepo.has_wiki githubRepo.has_pages githubRepo.homepage
      freshness := calculateFreshnessScore now githubRepo.created_at
        githubRepo.pushed_at
      compatibility := calculateCompatibilityScore githubRepo.license
        githubRepo.hasCI githubRepo.topics }
  let daysSinceLastPush := getDaysSince now githubRepo.pushed_at
  let trend : Trend :=
    if daysSinceLastPush ≤ 7 then Trend.up
    else if daysSinceLastPush > 90 then Trend.down
    else Trend.stable
  let signals : List String :=
    (if daysSinceLastPush ≤ 7 then ["Active"] else [])
    ++ (if githubRepo.has_wiki || githubRepo.has_pages
           || truthyStr githubRepo.homepage then ["Good Docs"] else [])
    ++ (if (match githubRepo.goodFirstIssues with
            | some n => decide (n > 0)
            | none => false) then ["Beginner Friendly"] else [])
    ++ (if githubRepo.stargazers_count ≥ 10000 then ["Large Community"] else [])
    ++ (if getDaysSince now githubRepo.created_at < 730 then ["Modern"] else [])
  { id := toString githubRepo.id
    name := githubRepo.name
    description :=
      match githubRepo.description with
      | some d => if d.isEmpty then "No description available" else d
      | none => "No description available"
    stars := githubRepo.stargazers_count
    healthScore := healthScore
    lastCommit := getTimeAgo now githubRepo.pushed_at
    goodFirstIssues := githubRepo.goodFirstIssues.getD 0
    ciStatus := if githubRepo.hasCI.getD false then "passing" else "warning"
    language := if githubRepo.language.isEmpty then "Unknown"
      else githubRepo.language
    license :=
      match githubRepo.license with
      | some l => if l.name.isEmpty then "No License" else l.name
      | none => "No License"
    contributors := githubRepo.contributors.getD 0
    topics := githubRepo.topics
    signals := signals
    trend := trend
    healthBreakdown := healthBreakdown
    avgIssueResponseTime := "< 2 days"
    prMergeRate := 75
    activeContributors :=
      (⌊((githubRepo.contributors.getD 0 : ℚ)) * (3 / 10 : ℚ)⌋).toNat
    contributorDiversity :=
      (⌊((githubRepo.contributors.getD 0 : ℚ)) * (5 / 10 : ℚ)⌋).toNat
    codeCoverage := 80
    hasGoodDocs := githubRepo.has_wiki || githubRepo.has_pages
      || truthyStr githubRepo.homepage
    hasWiki := githubRepo.has_wiki
    hasWebsite := truthyStr githubRepo.homepage }

/-- One day in milliseconds, for concrete test instants. -/
def msDay : Int := 86400000

/-- Evaluation form of `getDaysSince`: the rational ceiling equals an
integer division, making the function kernel-computable. -/
lemma getDaysSince_eval (now date : Int) :
    getDaysSince now date =
      -((-(((now - date).natAbs : Int))) / (86400000 : Int)) := by
  unfold getDaysSince
  generalize (now - date).natAbs = m
  have h1 : ((m : ℚ)) / (1000 * 60 * 60 * 24 : ℚ)
      = -((((-(m : Int) : Int)) : ℚ) / (((86400000 : ℕ)) : ℚ)) := by
    push_cast
    ring
  rw [h1, Int.ceil_neg, Rat.floor_intCast_div_natCast]
  norm_num

/-- Shape of the transformer's `trend` field. -/
lemma transform_trend (now : Int) (repo : GitHubRepoData) :
    (transformGitHubRepoToRepository now repo).trend =
      (if getDaysSince now repo.pushed_at ≤ 7 then Trend.up
       else if getDaysSince now repo.pushed_at > 90 then Trend.down
       else Trend.stable) := rfl

/-- Shape of the transformer's `signals` field. -/
lemma transform_signals (now : Int) (repo : GitHubRepoData) :
    (transformGitHubRepoToRepository now repo).signals =
      (if getDaysSince now repo.pushed_at ≤ 7 then ["Active"] else [])
      ++ (if repo.has_wiki || repo.has_pages || truthyStr repo.homepage
          then ["Good Docs"] else [])
      ++ (if (match repo.goodFirstIssues with
              | some n => decide (n > 0)
              | none => false) then ["Beginner Friendly"] else [])
      ++ (if repo.stargazers_count ≥ 10000 then ["Large Community"] else [])
      ++ (if getDaysSince now repo.created_at < 730 then ["Modern"] else []) :=
  rfl

/-- Claim C5: `getDaysSince` is the ceiling of the absolute millisecond
difference divided by one day, hence symmetric in its two instants and
never negative, even for instants in the future. -/
theorem getDaysSince_symm_nonneg (a b : Int) :
    getDaysSince a b = getDaysSince b a ∧ 0 ≤ getDaysSince a b := by
  constructor
  · unfold getDaysSince
    have h : (a - b).natAbs = (b - a).natAbs := by omega
    rw [h]
  · exact Int.ceil_nonneg (by positivity)

/-- Claim C2: the community score is a stars bucket plus a contributors
bucket capped at 100; the uncapped sum never exceeds 100 (the cap is a
no-op), and stars 50000 with contributors 500 yields exactly 100. -/
theorem communityScore_buckets_cap_noop :
    (∀ stars contributors : Nat,
      calculateCommunityScore stars contributors =
        (if stars ≥ 50000 then 50
         else if stars ≥ 10000 then 45
         else if stars ≥ 5000 then 40
         else if stars ≥ 1000 then 35
         else if stars ≥ 500 then 25
         else 15)
        + (if contributors ≥ 500 then 50
           else if contributors ≥ 100 then 45
           else if contributors ≥ 50 then 40
           else if contributors ≥ 20 then 30
           else if contributors ≥ 10 then 20
           else 10)
      ∧ (if stars ≥ 50000 then 50
         else if stars ≥ 10000 then 45
         else if stars ≥ 5000 then 40
         else if stars ≥ 1000 then 35
         else if stars ≥ 500 then 25
         else 15)
        + (if contributors ≥ 500 then 50
           else if contributors ≥ 100 then 45
           else if contributors ≥ 50 then 40
           else if contributors ≥ 20 then 30
           else if contributors ≥ 10 then 20
           else 10) ≤ 100)
    ∧ calculateCommunityScore 50000 500 = 100 := by
  refine ⟨fun stars contributors => ?_, by decide⟩
  unfold calculateCommunityScore
  refine ⟨?_, ?_⟩ <;> split_ifs <;> norm_num

/-- Claim C4: `timeAgoFromDays` maps a day count to the relative-time
string by the fixed bucket table, with integer division by 7, 30 and 365
and singular forms at exactly 1. -/
theorem timeAgoFromDays_buckets (d : Int) :
    (d = 0 → timeAgoFromDays d = "today")
    ∧ (d = 1 → timeAgoFromDays d = "1 day ago")
    ∧ (2 ≤ d → d ≤ 6 → timeAgoFromDays d = toString d ++ " days ago")
    ∧ (7 ≤ d → d ≤ 29 → timeAgoFromDays d =
        (if d / 7 = 1 then "1 week ago"
         else toString (d / 7) ++ " weeks ago"))
    ∧ (30 ≤ d → d ≤ 364 → timeAgoFromDays d =
        (if d / 30 = 1 then "1 month ago"
         else toString (d / 30) ++ " months ago"))
    ∧ (365 ≤ d → timeAgoFromDays d =
        (if d / 365 = 1 then "1 year ago"
         else toString (d / 365) ++ " years ago")) := by
  refine ⟨?_, ?_, ?_, ?_, ?_, ?_⟩
  · intro h; subst h; decide
  · intro h; subst h; decide
  · intro h1 h2
    unfold timeAgoFromDays
    rw [if_neg (by omega), if_neg (by omega), if_pos (by omega)]
  · intro h1 h2
    unfold timeAgoFromDays
    rw [if_neg (by omega), if_neg (by omega), if_neg (by omega),
      if_pos (by omega)]
  · intro h1 h2
    unfold timeAgoFromDays
    rw [if_neg (by omega), if_neg (by omega), if_neg (by omega),
      if_neg (by omega), if_pos (by omega)]
  · intro h1
    unfold timeAgoFromDays
    rw [if_neg (by omega), if_neg (by omega), if_neg (by omega),
      if_neg (by omega), if_neg (by omega)]

/-- Witness for C4: 7 and 13 days both render as one week ago, and the
other boundary cases from the spec hold. -/
theorem timeAgoFromDays_buckets_witness :
    timeAgoFromDays 7 = "1 week ago" ∧ timeAgoFromDays 13 = "1 week ago"
    ∧ timeAgoFromDays 0 = "today" ∧ timeAgoFromDays 30 = "1 month ago"
    ∧ timeAgoFromDays 365 = "1 year ago" := by
  refine ⟨?_, ?_, ?_, ?_, ?_⟩
  · rw [(timeAgoFromDays_buckets 7).2.2.2.1 (by norm_num) (by norm_num)]; decide
  · rw [(timeAgoFromDays_buckets 13).2.2.2.1 (by norm_num) (by norm_num)]; decide
  · rw [(timeAgoFromDays_buckets 0).1 rfl]
  · rw [(timeAgoFromDays_buckets 30).2.2.2.2.1 (by norm_num) (by norm_num)]
    decide
  · rw [(timeAgoFromDays_buckets 365).2.2.2.2.2 (by norm_num)]; decide

/-- Claim C3: the freshness score follows the two-tier policy (lenient
ladder when the repository is younger than 365 days, stricter ladder
otherwise); a repository created 10 days ago with a push 5 days ago
scores 95 through the young branch, and one created 730 days ago with a
push 5 days ago scores 95 through the mature branch. -/
theorem freshnessScore_two_tier :
    (∀ now createdAt pushedAt : Int,
      calculateFreshnessScore now createdAt pushedAt =
        if getDaysSince now createdAt < 365 then
          (if getDaysSince now pushedAt ≤ 30 then 95
           else if getDaysSince now pushedAt ≤ 90 then 85
           else 70)
        else
          (if getDaysSince now pushedAt ≤ 7 then 95
           else if getDaysSince now pushedAt ≤ 30 then 85
           else if getDaysSince now pushedAt ≤ 90 then 70
           else if getDaysSince now pushedAt ≤ 180 then 55
           else 35))
    ∧ (calculateFreshnessScore 0 (-10 * msDay) (-5 * msDay) = 95
        ∧ getDaysSince 0 (-10 * msDay) < 365)
    ∧ (calculateFreshnessScore 0 (-730 * msDay) (-5 * msDay) = 95
        ∧ ¬ getDaysSince 0 (-730 * msDay) < 365) := by
  refine ⟨fun now createdAt pushedAt => rfl, ⟨?_, ?_⟩, ⟨?_, ?_⟩⟩ <;>
    simp only [calculateFreshnessScore, getDaysSince_eval, msDay] <;> decide

/-- `calculateHealthScore` in closed form: the list reduce and length
evaluate to the five-way sum divided by five. -/
lemma calculateHealthScore_eq (now : Int) (repo : GitHubRepoData) :
    calculateHealthScore now repo =
      jsRound (((calculateActivityScore now repo.pushed_at
        + calculateCommunityScore repo.stargazers_count
            (repo.contributors.getD 0)
        + calculateDocumentationScore repo.description repo.has_wiki
            repo.has_pages repo.homepage
        + calculateFreshnessScore now repo.created_at repo.pushed_at
        + calculateCompatibilityScore repo.license repo.hasCI repo.topics
        : ℕ) : ℚ) / 5) := by
  unfold calculateHealthScore
  dsimp only
  congr 1
  simp only [List.foldl_cons, List.foldl_nil, List.length_cons,
    List.length_nil]
  push_cast
  ring

/-- Claim C1: the transformer's health score equals the arithmetic mean
of its own five breakdown sub-scores, rounded half up (`⌊mean + 1/2⌋`). -/
theorem healthScore_rounded_mean (now : Int) (repo : GitHubRepoData) :
    (transformGitHubRepoToRepository now repo).healthScore =
      jsRound ((((transformGitHubRepoToRepository now repo).healthBreakdown.activity
        + (transformGitHubRepoToRepository now repo).healthBreakdown.community
        + (transformGitHubRepoToRepository now repo).healthBreakdown.documentation
        + (transformGitHubRepoToRepository now repo).healthBreakdown.freshness
        + (transformGitHubRepoToRepository now repo).healthBreakdown.compatibility
        : ℕ) : ℚ) / 5) :=
  calculateHealthScore_eq now repo

/-- Bounds of the activity bucket table. -/
lemma activityScore_bounds (now pushedAt : Int) :
    30 ≤ calculateActivityScore now pushedAt
    ∧ calculateActivityScore now pushedAt ≤ 95 := by
  unfold calculateActivityScore
  dsimp only
  split_ifs <;> omega

/-- Bounds of the community bucket tables. -/
lemma communityScore_bounds (stars contributors : Nat) :
    25 ≤ calculateCommunityScore stars contributors
    ∧ calculateCommunityScore stars contributors ≤ 100 := by
  unfold calculateCommunityScore
  dsimp only
  split_ifs <;> omega

/-- Upper bound of the documentation score. -/
lemma documentationScore_le (description : Option String)
    (hasWiki hasPages : Bool) (homepage : Option String) :
    calculateDocumentationScore description hasWiki hasPages homepage ≤ 100 := by
  unfold calculateDocumentationScore
  split_ifs <;> omega

/-- Bounds of the freshness ladders. -/
lemma freshnessScore_bounds (now createdAt pushedAt : Int) :
    35 ≤ calculateFreshnessScore now createdAt pushedAt
    ∧ calculateFreshnessScore now createdAt pushedAt ≤ 95 := by
  unfold calculateFreshnessScore
  dsimp only
  split_ifs <;> omega

/-- Upper bound of the compatibility score. -/
lemma compatibilityScore_le (license : Option License)
    (hasCI : Option Bool) (topics : List String) :
    calculateCompatibilityScore license hasCI topics ≤ 100 := by
  unfold calculateCompatibilityScore
  split_ifs <;> omega

/-- Claim C9: the health score always lies in `[18, 98]`, strictly inside
the documented 0 to 100 range, because activity lies in `[30, 95]`,
community is at least 25 and freshness lies in `[35, 95]`. -/
theorem healthScore_range (now : Int) (repo : GitHubRepoData) :
    (18 ≤ calculateHealthScore now repo
      ∧ calculateHealthScore now repo ≤ 98)
    ∧ (30 ≤ calculateActivityScore now repo.pushed_at
      ∧ calculateActivityScore now repo.pushed_at ≤ 95)
    ∧ 25 ≤ calculateCommunityScore repo.stargazers_count
        (repo.contributors.getD 0)
    ∧ (35 ≤ calculateFreshnessScore now repo.created_at repo.pushed_at
      ∧ calculateFreshnessScore now repo.created_at repo.pushed_at ≤ 95) := by
  refine ⟨?_, activityScore_bounds now repo.pushed_at,
    (communityScore_bounds repo.stargazers_count (repo.contributors.getD 0)).1,
    freshnessScore_bounds now repo.created_at repo.pushed_at⟩
  rw [calculateHealthScore_eq]
  have ha := activityScore_bounds now repo.pushed_at
  have hb := communityScore_bounds repo.stargazers_count
    (repo.contributors.getD 0)
  have hc := documentationScore_le repo.description repo.has_wiki
    repo.has_pages repo.homepage
  have hd := freshnessScore_bounds now repo.created_at repo.pushed_at
  have he := compatibilityScore_le repo.license repo.hasCI repo.topics
  set s : ℕ := calculateActivityScore now repo.pushed_at
    + calculateCommunityScore repo.stargazers_count (repo.contributors.getD 0)
    + calculateDocumentationScore repo.description repo.has_wiki
        repo.has_pages repo.homepage
    + calculateFreshnessScore now repo.created_at repo.pushed_at
    + calculateCompatibilityScore repo.license repo.hasCI repo.topics with hsdef
  have hs1 : 90 ≤ s := by omega
  have hs2 : s ≤ 490 := by omega
  have hq1 : (90 : ℚ) ≤ (s : ℚ) := by exact_mod_cast hs1
  have hq2 : ((s : ℚ)) ≤ 490 := by exact_mod_cast hs2
  unfold jsRound
  constructor
  · rw [Int.le_floor]
    push_cast
    linarith
  · have hfl := Int.floor_lt.mpr
      (show ((s : ℚ)) / 5 + 1 / 2 < ((99 : ℤ) : ℚ) by push_cast; linarith)
    omega

/-- Floor of the exact rational product with 3/10 is Nat division. -/
lemma floor_mul_three_tenths (c : ℕ) :
    (⌊((c : ℚ)) * (3 / 10 : ℚ)⌋).toNat = 3 * c / 10 := by
  have h : ((c : ℚ)) * (3 / 10 : ℚ) = (((3 * c : ℕ)) : ℚ) / (((10 : ℕ)) : ℚ) := by
    push_cast; ring
  rw [h, Rat.floor_natCast_div_natCast]
  omega

/-- Floor of the exact rational product with 5/10 is halving. -/
lemma floor_mul_half (c : ℕ) :
    (⌊((c : ℚ)) * (5 / 10 : ℚ)⌋).toNat = c / 2 := by
  have h : ((c : ℚ)) * (5 / 10 : ℚ) = (((c : ℕ)) : ℚ) / (((2 : ℕ)) : ℚ) := by
    push_cast; ring
  rw [h, Rat.floor_natCast_div_natCast]
  omega

/-- Claim C7: the transformer's filler fields are fixed constants, and
the two contributor estimates are floors of the exact rational products
with 0.3 and 0.5 of the defaulted contributor count. -/
theorem transformer_filler_fields (now : Int) (repo : GitHubRepoData) :
    (transformGitHubRepoToRepository now repo).avgIssueResponseTime = "< 2 days"
    ∧ (transformGitHubRepoToRepository now repo).prMergeRate = 75
    ∧ (transformGitHubRepoToRepository now repo).codeCoverage = 80
    ∧ (transformGitHubRepoToRepository now repo).activeContributors
        = 3 * (repo.contributors.getD 0) / 10
    ∧ (transformGitHubRepoToRepository now repo).contributorDiversity
        = (repo.contributors.getD 0) / 2 :=
  ⟨rfl, rfl, rfl, floor_mul_three_tenths (repo.contributors.getD 0),
    floor_mul_half (repo.contributors.getD 0)⟩

/-- Claim C8: the scoring functions are total with defined defaults: an
absent contributor count scores as 0, an absent license displays as
"No License" and contributes nothing to compatibility, an absent
description displays the fixed fallback text, and an absent CI signal is
treated as false and displayed as "warning". -/
theorem scoring_defaults (now : Int) (repo : GitHubRepoData) :
    (repo.contributors = none →
      (transformGitHubRepoToRepository now repo).contributors = 0
      ∧ (transformGitHubRepoToRepository now repo).healthBreakdown.community
          = calculateCommunityScore repo.stargazers_count 0)
    ∧ (repo.license = none →
      (transformGitHubRepoToRepository now repo).license = "No License"
      ∧ (transformGitHubRepoToRepository now repo).healthBreakdown.compatibility
          = (if repo.hasCI.getD false then 30 else 0)
            + (if repo.topics.length > 0 then 30 else 0))
    ∧ (repo.description = none →
      (transformGitHubRepoToRepository now repo).description
        = "No description available")
    ∧ (repo.hasCI = none →
      (transformGitHubRepoToRepository now repo).ciStatus = "warning"
      ∧ (transformGitHubRepoToRepository now repo).healthBreakdown.compatibility
          = (if repo.license.isSome then 40 else 0)
            + (if repo.topics.length > 0 then 30 else 0)) := by
  refine ⟨fun h => ?_, fun h => ?_, fun h => ?_, fun h => ?_⟩ <;>
    simp [transformGitHubRepoToRepository, calculateCompatibilityScore, h]

/-- A record with every optional field absent, exercising the defaults. -/
def repoDefaults : GitHubRepoData :=
  { id := 7, name := "gamma", full_name := "acme/gamma",
    description := none, stargazers_count := 0, language := "",
    license := none, open_issues_count := 0, pushed_at := 0,
    created_at := 0, updated_at := 0, topics := [],
    has_wiki := false, has_pages := false, homepage := none,
    contributors := none, goodFirstIssues := none, hasCI := none }

/-- Witness for C8: the defaults all fire on a record with every
optional field absent. -/
theorem scoring_defaults_witness :
    (transformGitHubRepoToRepository 0 repoDefaults).contributors = 0
    ∧ (transformGitHubRepoToRepository 0 repoDefaults).license = "No License"
    ∧ (transformGitHubRepoToRepository 0 repoDefaults).description
        = "No description available"
    ∧ (transformGitHubRepoToRepository 0 repoDefaults).ciStatus = "warning" := by
  have h := scoring_defaults 0 repoDefaults
  exact ⟨(h.1 rfl).1, (h.2.1 rfl).1, h.2.2.1 rfl, (h.2.2.2 rfl).1⟩

/-- Reference instant for the concrete transformer inputs: day 1000. -/
def nowRef : Int := 1000 * msDay

/-- A record satisfying all five signal conditions at `nowRef`. -/
def repoAll : GitHubRepoData :=
  { id := 101, name := "alpha", full_name := "acme/alpha",
    description := some "A repository with a long description text",
    stargazers_count := 20000, language := "TypeScript",
    license := some { spdx_id := "MIT", name := "MIT License" },
    open_issues_count := 12, pushed_at := 995 * msDay,
    created_at := 900 * msDay, updated_at := 995 * msDay,
    topics := ["web"], has_wiki := true, has_pages := false,
    homepage := some "alpha.example", contributors := some 40,
    goodFirstIssues := some 3, hasCI := some true }

/-- A record satisfying none of the five signal conditions at `nowRef`. -/
def repoNone : GitHubRepoData :=
  { id := 102, name := "beta", full_name := "acme/beta",
    description := none, stargazers_count := 500, language := "",
    license := none, open_issues_count := 0, pushed_at := 900 * msDay,
    created_at := 0, updated_at := 900 * msDay, topics := [],
    has_wiki := false, has_pages := false, homepage := none,
    contributors := none, goodFirstIssues := none, hasCI := none }

/-- Claim C6: the signals list is exactly the labels whose conditions
hold, in the fixed order Active, Good Docs, Beginner Friendly, Large
Community, Modern; an input satisfying all five yields that five-element
list and an input satisfying none yields the empty list. -/
theorem transformer_signals_list :
    (∀ (now : Int) (repo : GitHubRepoData),
      (transformGitHubRepoToRepository now repo).signals =
        (if getDaysSince now repo.pushed_at ≤ 7 then ["Active"] else [])
        ++ (if repo.has_wiki || repo.has_pages || truthyStr repo.homepage
            then ["Good Docs"] else [])
        ++ (if (match repo.goodFirstIssues with
                | some n => decide (n > 0)
                | none => false) then ["Beginner Friendly"] else [])
        ++ (if repo.stargazers_count ≥ 10000 then ["Large Community"] else [])
        ++ (if getDaysSince now repo.created_at < 730 then ["Modern"] else []))
    ∧ (transformGitHubRepoToRepository nowRef repoAll).signals
        = ["Active", "Good Docs", "Beginner Friendly", "Large Community",
           "Modern"]
    ∧ (transformGitHubRepoToRepository nowRef repoNone).signals = [] := by
  refine ⟨transform_signals, ?_, ?_⟩ <;>
    rw [transform_signals] <;> simp only [getDaysSince_eval] <;> decide

/-- Claim C10: the trend is `up` exactly when "Active" appears in the
signals list, both being decided by the push being at most 7 days old;
hence a `down` or `stable` trend excludes the "Active" signal. -/
theorem trend_up_iff_active (now : Int) (repo : GitHubRepoData) :
    ((transformGitHubRepoToRepository now repo).trend = Trend.up
      ↔ "Active" ∈ (transformGitHubRepoToRepository now repo).signals)
    ∧ (((transformGitHubRepoToRepository now repo).trend = Trend.down
        ∨ (transformGitHubRepoToRepository now repo).trend = Trend.stable)
      → "Active" ∉ (transformGitHubRepoToRepository now repo).signals) := by
  rw [transform_trend, transform_signals]
  by_cases h : getDaysSince now repo.pushed_at ≤ 7
  · simp only [if_pos h]
    refine ⟨⟨fun _ => by simp, fun _ => by trivial⟩, fun hd => ?_⟩
    rcases hd with hd | hd <;> exact Trend.noConfusion hd
  · simp only [if_neg h, List.nil_append]
    refine ⟨⟨fun ht => ?_, fun hmem => ?_⟩, fun _ hmem => ?_⟩
    · split_ifs at ht
    · exfalso
      split_ifs at hmem <;> exact absurd hmem (by decide)
    · split_ifs at hmem <;> exact absurd hmem (by decide)

/-- Witness for C10: a record pushed 100 days before the reference
instant has a `down` trend and no "Active" signal. -/
theorem trend_up_iff_active_witness :
    ((transformGitHubRepoToRepository nowRef repoNone).trend = Trend.down
      ∨ (transformGitHubRepoToRepository nowRef repoNone).trend = Trend.stable)
    ∧ "Active" ∉ (transformGitHubRepoToRepository nowRef repoNone).signals := by
  have hd : (transformGitHubRepoToRepository nowRef repoNone).trend
      = Trend.down := by
    rw [transform_trend]
    simp only [getDaysSince_eval]
    decide
  exact ⟨Or.inl hd, (trend_up_iff_active nowRef repoNone).2 (Or.inl hd)⟩

